import Mathlib

/-!
Verification of the QR-ticket integrity and check-in/check-out logic of the
event-organizer application.

The development shallowly embeds:
* `src/src/lib/types.ts` — `generateQRCodeData` and `verifyQRCodeData`
  (HMAC-signed JSON ticket payloads, 24-hour expiry);
* the QR scan route (`POST`): multi-format scan resolution
  (JSON / URL / bare id / base64), the ticket lookup chain, the
  registration/event state checks and the attendance check-in/check-out
  transitions;
* `src/src/app/api/attendance/route.ts` — the manual check-in `POST`.

JavaScript runtime primitives that the code calls (HMAC-SHA256, `Date`
parsing, base64 decoding) are modelled as explicit function parameters in
`Env`; `JSON.parse` / `JSON.stringify` are modelled executably below,
faithful to the JSON grammar on the shapes the routes exercise.  Times are
integer milliseconds since the epoch (JavaScript `Date.getTime()` values);
JSON numbers are kept as unreduced decimal mantissa/exponent pairs
(`m · 10^e`), which is enough to distinguish every behaviour the routes
depend on (truthiness and structural equality of parsed payloads).
-/

/-! ### JSON values

`JSON.parse` produces, and `JSON.stringify` consumes, this value space.
Objects are insertion-ordered key/value lists; `JSON.parse` deduplicates
repeated keys JavaScript-style (first position, last value), which
`objUpsert` below implements. -/

inductive Json where
  | null
  | bool (b : Bool)
  | num (m : ℤ) (e : ℤ)
  | str (s : String)
  | arr (xs : List Json)
  | obj (kvs : List (String × Json))

/-- JSON whitespace (space, tab, line feed, carriage return). -/
def isWs (c : Char) : Bool := c == ' ' || c == '\t' || c == '\n' || c == '\r'

def skipWs (cs : List Char) : List Char := cs.dropWhile isWs

def hexVal (c : Char) : Option Nat :=
  let n := c.toNat
  if 48 ≤ n ∧ n ≤ 57 then some (n - 48)
  else if 97 ≤ n ∧ n ≤ 102 then some (n - 87)
  else if 65 ≤ n ∧ n ≤ 70 then some (n - 55)
  else none

/-- Body of a JSON string literal, after the opening quote: ordinary
characters, the standard escapes, and `\uXXXX`.  Raw control characters
are rejected, as in the JSON grammar.  (Lone-surrogate `\uXXXX` escapes,
which Lean's `Char` cannot represent, are mapped through `Char.ofNat`;
no verified code path produces them.) -/
def parseStrBody : List Char → Option (List Char × List Char)
  | [] => none
  | '"' :: rest => some ([], rest)
  | '\\' :: e :: rest =>
    match e with
    | '"' => (parseStrBody rest).map (fun p => ('"' :: p.1, p.2))
    | '\\' => (parseStrBody rest).map (fun p => ('\\' :: p.1, p.2))
    | '/' => (parseStrBody rest).map (fun p => ('/' :: p.1, p.2))
    | 'b' => (parseStrBody rest).map (fun p => ('\x08' :: p.1, p.2))
    | 'f' => (parseStrBody rest).map (fun p => ('\x0c' :: p.1, p.2))
    | 'n' => (parseStrBody rest).map (fun p => ('\n' :: p.1, p.2))
    | 'r' => (parseStrBody rest).map (fun p => ('\r' :: p.1, p.2))
    | 't' => (parseStrBody rest).map (fun p => ('\t' :: p.1, p.2))
    | 'u' =>
      match rest with
      | a :: b :: c :: d :: rest2 =>
        match hexVal a, hexVal b, hexVal c, hexVal d with
        | some x, some y, some z, some w =>
          (parseStrBody rest2).map
            (fun p => (Char.ofNat (((x * 16 + y) * 16 + z) * 16 + w) :: p.1, p.2))
        | _, _, _, _ => none
      | _ => none
    | _ => none
  | c :: rest =>
    if c.toNat < 32 then none
    else (parseStrBody rest).map (fun p => (c :: p.1, p.2))

def digitsToNat (ds : List Char) : Nat :=
  ds.foldl (fun n c => 10 * n + (c.toNat - 48)) 0

/-- Optional exponent part of a JSON number. -/
def parseExp (cs : List Char) : Option (Bool × List Char × List Char) :=
  match cs with
  | 'e' :: '+' :: rest => some (false, rest.takeWhile Char.isDigit, rest.dropWhile Char.isDigit)
  | 'e' :: '-' :: rest => some (true, rest.takeWhile Char.isDigit, rest.dropWhile Char.isDigit)
  | 'e' :: rest => some (false, rest.takeWhile Char.isDigit, rest.dropWhile Char.isDigit)
  | 'E' :: '+' :: rest => some (false, rest.takeWhile Char.isDigit, rest.dropWhile Char.isDigit)
  | 'E' :: '-' :: rest => some (true, rest.takeWhile Char.isDigit, rest.dropWhile Char.isDigit)
  | 'E' :: rest => some (false, rest.takeWhile Char.isDigit, rest.dropWhile Char.isDigit)
  | _ => none

/-- JSON number: `-?(0|[1-9][0-9]*)(\.[0-9]+)?([eE][+-]?[0-9]+)?`, kept as
mantissa/decimal-exponent. -/
def parseNum (cs : List Char) : Option (Json × List Char) :=
  let negp : Bool × List Char := match cs with
    | '-' :: rest => (true, rest)
    | _ => (false, cs)
  let neg := negp.1
  let cs1 := negp.2
  let intDs := cs1.takeWhile Char.isDigit
  let cs2 := cs1.dropWhile Char.isDigit
  if intDs = [] then none
  else if 1 < intDs.length ∧ intDs.head? = some '0' then none
  else
    let fr : List Char × List Char := match cs2 with
      | '.' :: rest => (rest.takeWhile Char.isDigit, rest.dropWhile Char.isDigit)
      | _ => ([], cs2)
    let fracDs := fr.1
    let cs3 := fr.2
    if cs2.head? = some '.' ∧ fracDs = [] then none
    else
      match parseExp cs3 with
      | some (expNeg, expDs, cs4) =>
        if expDs = [] then none
        else
          let m : ℤ := (if neg then -1 else 1) * (digitsToNat (intDs ++ fracDs) : ℤ)
          let e : ℤ := (if expNeg then -(digitsToNat expDs : ℤ) else (digitsToNat expDs : ℤ))
            - (fracDs.length : ℤ)
          some (.num m e, cs4)
      | none =>
        let m : ℤ := (if neg then -1 else 1) * (digitsToNat (intDs ++ fracDs) : ℤ)
        some (.num m (-(fracDs.length : ℤ)), cs3)

/-- JavaScript object-literal semantics for a repeated key: the property
keeps its first position and takes the last value. -/
def objUpsert (kvs : List (String × Json)) (k : String) (v : Json) : List (String × Json) :=
  if kvs.any (fun p => p.1 == k) then kvs.map (fun p => if p.1 == k then (k, v) else p)
  else kvs ++ [(k, v)]

mutual
/-- One JSON value (fuelled; the fuel only bounds recursion into nested
containers and is always sufficient at `Json.parse`'s call site). -/
def parseVal : Nat → List Char → Option (Json × List Char)
  | 0, _ => none
  | _ + 1, [] => none
  | fuel + 1, c :: rest =>
    match c with
    | '\x7b' =>
      match skipWs rest with
      | '\x7d' :: rest2 => some (.obj [], rest2)
      | rest1 => (parseMembers fuel [] rest1).map (fun p => (.obj p.1, p.2))
    | '[' =>
      match skipWs rest with
      | ']' :: rest2 => some (.arr [], rest2)
      | rest1 => (parseElems fuel [] rest1).map (fun p => (.arr p.1, p.2))
    | '"' => (parseStrBody rest).map (fun p => (.str (String.mk p.1), p.2))
    | 't' => match rest with
      | 'r' :: 'u' :: 'e' :: rest2 => some (.bool true, rest2)
      | _ => none
    | 'f' => match rest with
      | 'a' :: 'l' :: 's' :: 'e' :: rest2 => some (.bool false, rest2)
      | _ => none
    | 'n' => match rest with
      | 'u' :: 'l' :: 'l' :: rest2 => some (.null, rest2)
      | _ => none
    | _ => parseNum (c :: rest)

/-- Members of a non-empty JSON object, starting at the opening quote of
the first key (anything but a key here is a syntax error). -/
def parseMembers : Nat → List (String × Json) → List Char →
    Option (List (String × Json) × List Char)
  | 0, _, _ => none
  | fuel + 1, acc, '"' :: rest =>
    match parseStrBody rest with
    | none => none
    | some (kcs, rest1) =>
      match skipWs rest1 with
      | ':' :: rest2 =>
        match parseVal fuel (skipWs rest2) with
        | none => none
        | some (v, rest3) =>
          let acc1 := objUpsert acc (String.mk kcs) v
          match skipWs rest3 with
          | '\x7d' :: rest4 => some (acc1, rest4)
          | ',' :: rest4 => parseMembers fuel acc1 (skipWs rest4)
          | _ => none
      | _ => none
  | _ + 1, _, _ => none

/-- Elements of a non-empty JSON array. -/
def parseElems : Nat → List Json → List Char → Option (List Json × List Char)
  | 0, _, _ => none
  | fuel + 1, acc, input =>
    match parseVal fuel input with
    | none => none
    | some (v, rest) =>
      match skipWs rest with
      | ']' :: rest2 => some (acc ++ [v], rest2)
      | ',' :: rest2 =>
        match skipWs rest2 with
        | ']' :: _ => none
        | rest3 => parseElems fuel (acc ++ [v]) rest3
      | _ => none
end

/-- Model of `JSON.parse`: one JSON value surrounded by optional whitespace;
anything else throws (modelled as `none`).  The fuel `length + 8`
strictly dominates the recursion (every descent consumes input). -/
def Json.parse (s : String) : Option Json :=
  match parseVal (s.data.length + 8) (skipWs s.data) with
  | some (v, rest) => if skipWs rest = [] then some v else none
  | none => none

/-- Lowercase hex digit, as `JSON.stringify` emits in `\u00xx` escapes. -/
def hexDigitChar (n : Nat) : Char :=
  Char.ofNat (if n < 10 then 48 + n else 87 + n)

/-- Escape of one character inside a `JSON.stringify` string literal:
`"` and `\` are backslash-escaped, control characters use the short
escapes or lowercase `\u00xx`, everything else is verbatim. -/
def escChar (c : Char) : List Char :=
  if c = '"' then ['\\', '"']
  else if c = '\\' then ['\\', '\\']
  else if c = '\x08' then ['\\', 'b']
  else if c = '\t' then ['\\', 't']
  else if c = '\n' then ['\\', 'n']
  else if c = '\x0c' then ['\\', 'f']
  else if c = '\r' then ['\\', 'r']
  else if c.toNat < 32 then
    ['\\', 'u', '0', '0', hexDigitChar (c.toNat / 16), hexDigitChar (c.toNat % 16)]
  else [c]

def escList (cs : List Char) : List Char := cs.flatMap escChar

mutual
/-- Model of `JSON.stringify` (no replacer/indent): compact output, keys in
insertion order.  Number formatting is approximated (the verified code
paths only ever stringify objects whose values are strings). -/
def serializeV : Json → List Char
  | .null => "null".data
  | .bool b => (cond b "true" "false").data
  | .num m e => (toString m).data ++ (if e = 0 then [] else 'e' :: (toString e).data)
  | .str s => '"' :: escList s.data ++ ['"']
  | .arr xs => '[' :: serializeArr xs ++ [']']
  | .obj kvs => '\x7b' :: serializeMembers kvs ++ ['\x7d']

def serializeArr : List Json → List Char
  | [] => []
  | [x] => serializeV x
  | x :: y :: xs => serializeV x ++ ',' :: serializeArr (y :: xs)

def serializeMembers : List (String × Json) → List Char
  | [] => []
  | [(k, v)] => '"' :: escList k.data ++ '"' :: ':' :: serializeV v
  | (k, v) :: m :: ms =>
    ('"' :: escList k.data ++ '"' :: ':' :: serializeV v) ++ ',' :: serializeMembers (m :: ms)
end

def Json.stringify (j : Json) : String := String.mk (serializeV j)

/-- Property access `j.k` on a parsed JSON value: `undefined` (here
`none`) on anything but an object with the key. -/
def jGet (j : Json) (k : String) : Option Json :=
  match j with
  | .obj kvs => (kvs.find? (fun p => p.1 == k)).map (fun p => p.2)
  | _ => none

/-- Rest-destructuring `const « hash, ...rest » = j` on an object:
every property except `k`, in order. -/
def jRemoveKey (j : Json) (k : String) : Json :=
  match j with
  | .obj kvs => .obj (kvs.filter (fun p => p.1 != k))
  | _ => .obj []

/-- JavaScript truthiness of a property-access result (`undefined`,
`null`, `false`, `0`, `""` are falsy). -/
def truthy : Option Json → Bool
  | none => false
  | some .null => false
  | some (.bool b) => b
  | some (.num m _) => m != 0
  | some (.str s) => s != ""
  | some (.arr _) => true
  | some (.obj _) => true

/-! ### Runtime environment

The process-wide configuration and the JavaScript runtime primitives the
embedded code calls.  `hmac` stands for
`crypto.createHmac('sha256', key).update(msg).digest('hex')`, `parseDate`
for `new Date(s).getTime()` (`none` = Invalid Date / NaN), `b64decode`
for `Buffer.from(s, 'base64').toString('utf-8')` (total: Node's base64
decoder never throws), and `urlOk` for "`new URL(s)` does not throw"
(WHATWG URL parsing, a runtime primitive like the others — scheme/host
validity rules are not re-modelled here). -/

structure Env where
  secretEnv : Option String
  hmac : String → String → String
  parseDate : String → Option ℤ
  b64decode : String → String
  urlOk : String → Bool

/-- The secret `process.env.NEXTAUTH_SECRET || 'fallback-secret'` — an unset or
empty variable silently falls back to the constant. -/
def secretOf (env : Env) : String :=
  match env.secretEnv with
  | some s => if s = "" then "fallback-secret" else s
  | none => "fallback-secret"

/-- The five signed payload fields, in the object-literal order of
`generateQRCodeData` (the `type` field generalised for tamper lemmas). -/
def qrPayloadDataT (registrationId eventId userId timestamp ty : String) : Json :=
  .obj [("registrationId", .str registrationId), ("eventId", .str eventId),
        ("userId", .str userId), ("timestamp", .str timestamp), ("type", .str ty)]

def qrPayloadData (registrationId eventId userId timestamp : String) : Json :=
  qrPayloadDataT registrationId eventId userId timestamp "EVENT_TICKET"

/-- The full payload: the five signed fields plus the appended `hash`. -/
def qrPayloadFullT (registrationId eventId userId timestamp ty hash : String) : Json :=
  .obj [("registrationId", .str registrationId), ("eventId", .str eventId),
        ("userId", .str userId), ("timestamp", .str timestamp), ("type", .str ty),
        ("hash", .str hash)]

def qrPayloadFull (registrationId eventId userId timestamp hash : String) : Json :=
  qrPayloadFullT registrationId eventId userId timestamp "EVENT_TICKET" hash

/-- Model of `generateQRCodeData(registrationId, eventId, userId)`.  The clock
reading `new Date().toISOString()` is passed in as `timestampIso`. -/
def generateQRCodeData (env : Env) (registrationId eventId userId : String)
    (timestampIso : String) : String :=
  let data := qrPayloadData registrationId eventId userId timestampIso
  let hash := env.hmac (secretOf env) (Json.stringify data)
  Json.stringify (qrPayloadFull registrationId eventId userId timestampIso hash)

/-- Coercion `new Date(x)` for the parsed JSON value found at `qrData.timestamp`:
a string goes through date parsing, a finite integer number is taken as
epoch milliseconds, `null`/booleans coerce to 0/1; other shapes are
modelled as Invalid Date (none of the verified paths reach them). -/
def dateOfJson (env : Env) : Option Json → Option ℤ
  | some (.str s) => env.parseDate s
  | some (.num m e) => if 0 ≤ e then some (m * 10 ^ e.toNat) else none
  | some (.bool b) => some (if b then 1 else 0)
  | some .null => some 0
  | _ => none

/-- The source computes `hoursDiff = (now - t) / (1000*60*60)` in IEEE
doubles and tests `hoursDiff > 24`.  For integer-millisecond inputs this
holds exactly when `now - t > 24*3600000`: the quotient's distance from
24 is at least `1/3600000`, far above the double spacing near 24, so
rounding never crosses the boundary.  `hoursDiff_gt_24_iff` below states
the exact-arithmetic equivalence. -/
def hoursDiffExceeds24 (diffMs : ℤ) : Bool := decide (24 * 3600000 < diffMs)

theorem hoursDiff_gt_24_iff (diffMs : ℤ) :
    ((diffMs : ℚ) / 3600000 > 24) ↔ hoursDiffExceeds24 diffMs = true := by
  rw [gt_iff_lt, lt_div_iff₀ (by norm_num : (0 : ℚ) < 3600000), hoursDiffExceeds24,
    decide_eq_true_eq]
  constructor
  · intro h
    exact_mod_cast h
  · intro h
    exact_mod_cast h

inductive VerifyResult where
  | valid (data : Json)
  | invalid (error : String)

/-- Model of `verifyQRCodeData(qrDataString)`: parse, split off `hash`, recompute
the keyed hash over the remaining fields, compare, then apply the
24-hour age check.  Any exception (parse failure, destructuring `null`)
is caught and reported as the format error. -/
def verifyQRCodeData (env : Env) (now : ℤ) (qrDataString : String) : VerifyResult :=
  match Json.parse qrDataString with
  | none => .invalid "Invalid QR code format"
  | some .null => .invalid "Invalid QR code format"
  | some qrData =>
    if truthy (jGet qrData "hash") && truthy (jGet qrData "registrationId")
        && truthy (jGet qrData "eventId") then
      let originalData := jRemoveKey qrData "hash"
      let expectedHash := env.hmac (secretOf env) (Json.stringify originalData)
      match jGet qrData "hash" with
      | some (.str h) =>
        if h = expectedHash then
          match dateOfJson env (jGet qrData "timestamp") with
          | none => .valid qrData
          | some t =>
            if hoursDiffExceeds24 (now - t) then .invalid "QR code has expired"
            else .valid qrData
        else .invalid "QR code has been tampered with"
      | _ => .invalid "QR code has been tampered with"
    else .invalid "Invalid QR code format"

/-! ### Persistent state (Prisma tables), scoped to what the two routes read -/

inductive RegStatus where
  | PENDING | CONFIRMED | CANCELLED | WAITLIST
deriving DecidableEq

inductive EventStatus where
  | DRAFT | PUBLISHED | ONGOING | COMPLETED | CANCELLED
deriving DecidableEq

inductive CheckInMethod where
  | QR_CODE | MANUAL
deriving DecidableEq

structure Registration where
  id : String
  status : RegStatus
  eventId : String
  userId : String
deriving DecidableEq

structure Event where
  id : String
  status : EventStatus
  startDate : ℤ
  endDate : ℤ
deriving DecidableEq

structure Ticket where
  id : String
  registrationId : String
  ticketNumber : String
  qrCodeData : String
deriving DecidableEq

structure Attendance where
  id : ℕ
  registrationId : String
  sessionId : Option String
  checkInTime : Option ℤ
  checkOutTime : Option ℤ
  method : CheckInMethod
deriving DecidableEq

structure DB where
  registrations : List Registration
  events : List Event
  tickets : List Ticket
  attendances : List Attendance
  nextAttendanceId : ℕ
deriving DecidableEq

/-- The partition key `sessionId || null`: `undefined` and the empty string both coerce to
`null`. -/
def sessionKey : Option String → Option String
  | none => none
  | some s => if s = "" then none else some s

/-- Lookup `prisma.attendance.findFirst(where: registrationId, sessionId)` —
the existence check on the check-in path (open or completed rows both
match). -/
def findExistingAttendance (db : DB) (rid : String) (key : Option String) :
    Option Attendance :=
  db.attendances.find? (fun a => a.registrationId == rid && a.sessionId == key)

/-- Lookup `prisma.attendance.findFirst(where: registrationId, sessionId,
checkInTime not null, checkOutTime null)` — the open row looked up on
the check-out path. -/
def findOpenAttendance (db : DB) (rid : String) (key : Option String) :
    Option Attendance :=
  db.attendances.find? (fun a => a.registrationId == rid && a.sessionId == key
    && a.checkInTime.isSome && a.checkOutTime.isNone)

/-! ### Scan route: multi-format resolution -/

def listPrefixOf : List Char → List Char → Bool
  | [], _ => true
  | _ :: _, [] => false
  | a :: as, b :: bs => a == b && listPrefixOf as bs

def strStartsWith (s pre : String) : Bool := listPrefixOf pre.data s.data

/-- The identifier class `^[a-zA-Z0-9-_]+$` (ASCII, at least one character). -/
def isIdChar (c : Char) : Bool := c.isAlpha || c.isDigit || c == '-' || c == '_'

def isIdString (s : String) : Bool := !s.data.isEmpty && s.data.all isIdChar

/-- Decoding of an `application/x-www-form-urlencoded` query component. -/
def formDecode : List Char → List Char
  | [] => []
  | '+' :: rest => ' ' :: formDecode rest
  | '%' :: a :: b :: rest =>
    match hexVal a, hexVal b with
    | some x, some y => Char.ofNat (x * 16 + y) :: formDecode rest
    | _, _ => '%' :: formDecode (a :: b :: rest)
  | c :: rest => c :: formDecode rest

def splitOnAmp : List Char → List (List Char)
  | [] => [[]]
  | '&' :: rest => [] :: splitOnAmp rest
  | c :: rest =>
    match splitOnAmp rest with
    | [] => [[c]]
    | g :: gs => (c :: g) :: gs

/-- The query component: after the first `?`, up to any `#`. -/
def queryOf : List Char → Option (List Char)
  | [] => none
  | '?' :: rest => some (rest.takeWhile (fun c => c != '#'))
  | '#' :: _ => none
  | _ :: rest => queryOf rest

def pairKeyVal (p : List Char) : List Char × List Char :=
  (p.takeWhile (fun c => c != '='),
   match p.dropWhile (fun c => c != '=') with
   | '=' :: v => v
   | _ => [])

/-- Model of `new URL(s).searchParams.get(k)`: first matching pair, decoded;
`null` when absent. -/
def searchParamGet (url : String) (k : String) : Option String :=
  match queryOf url.data with
  | none => none
  | some q =>
    match ((splitOnAmp q).filter (fun p => !p.isEmpty)).find?
        (fun p => formDecode (pairKeyVal p).1 == k.data) with
    | some p => some (String.mk (formDecode (pairKeyVal p).2))
    | none => none

inductive ResolveOut where
  | ok (j : Json)
  | fail

/-- The scan route's multi-format recovery of `qrCodeData` from the raw
scanned text: JSON first; else a URL's `registrationId`/`eventId`/
`userId` query parameters when `new URL` accepts the text (all three
parameters required truthy, or the branch throws into the catch, as
does a text the URL constructor rejects); else a bare identifier; else
base64-encoded JSON; else the 400 `Invalid QR code format` response
(`fail`). -/
def resolveScan (env : Env) (qrData : String) : ResolveOut :=
  match Json.parse qrData with
  | some j => .ok j
  | none =>
    if strStartsWith qrData "http" then
      if env.urlOk qrData then
        match searchParamGet qrData "registrationId", searchParamGet qrData "eventId",
            searchParamGet qrData "userId" with
        | some rid, some eid, some uid =>
          if rid ≠ "" ∧ eid ≠ "" ∧ uid ≠ "" then
            .ok (.obj [("registrationId", .str rid), ("eventId", .str eid),
                       ("userId", .str uid)])
          else .fail
        | _, _, _ => .fail
      else .fail
    else if isIdString qrData then .ok (.obj [("registrationId", .str qrData)])
    else
      match Json.parse (env.b64decode qrData) with
      | some j => .ok j
      | none => .fail

/-! ### Round-trip lemmas: `Json.parse` inverts `Json.stringify` on the
flat string-valued objects the ticket payloads are built from -/

lemma string_mk_data (s : String) : String.mk s.data = s := rfl

lemma hexVal_hexDigitChar (n : Nat) (h : n < 16) : hexVal (hexDigitChar n) = some n := by
  interval_cases n <;> rfl

lemma parseStrBody_plain (c : Char) (h1 : c ≠ '"') (h2 : c ≠ '\\') (rest : List Char) :
    parseStrBody (c :: rest) =
      if c.toNat < 32 then none
      else (parseStrBody rest).map (fun p => (c :: p.1, p.2)) := by
  rw [parseStrBody.eq_def]
  split <;> simp_all

lemma parseStrBody_esc (cs : List Char) (rest : List Char) :
    parseStrBody (escList cs ++ '"' :: rest) = some (cs, rest) := by
  induction cs with
  | nil => rfl
  | cons c cs ih =>
    show parseStrBody (escChar c ++ escList cs ++ '"' :: rest) = _
    by_cases h1 : c = '"'
    · subst h1; simp [escChar, parseStrBody, ih]
    · by_cases h2 : c = '\\'
      · subst h2; simp [escChar, parseStrBody, ih]
      · by_cases h3 : c = '\x08'
        · subst h3; simp [escChar, parseStrBody, ih]
        · by_cases h4 : c = '\t'
          · subst h4; simp [escChar, parseStrBody, ih]
          · by_cases h5 : c = '\n'
            · subst h5; simp [escChar, parseStrBody, ih]
            · by_cases h6 : c = '\x0c'
              · subst h6; simp [escChar, parseStrBody, ih]
              · by_cases h7 : c = '\r'
                · subst h7; simp [escChar, parseStrBody, ih]
                · by_cases h8 : c.toNat < 32
                  · have hdiv : c.toNat / 16 < 16 := by omega
                    have hmod : c.toNat % 16 < 16 := Nat.mod_lt _ (by norm_num)
                    simp only [escChar, if_neg h1, if_neg h2, if_neg h3, if_neg h4, if_neg h5,
                      if_neg h6, if_neg h7, if_pos h8]
                    simp only [List.cons_append, List.nil_append, parseStrBody,
                      hexVal_hexDigitChar _ hdiv, hexVal_hexDigitChar _ hmod,
                      show hexVal '0' = some 0 from rfl]
                    have harith : ((0 * 16 + 0) * 16 + c.toNat / 16) * 16 + c.toNat % 16
                        = c.toNat := by omega
                    rw [harith, Char.ofNat_toNat]
                    simp [ih]
                  · have hesc : escChar c = [c] := by
                      simp [escChar, if_neg h1, if_neg h2, if_neg h3, if_neg h4, if_neg h5,
                        if_neg h6, if_neg h7, if_neg h8]
                    rw [hesc]
                    simp only [List.cons_append, List.nil_append]
                    rw [parseStrBody_plain c h1 h2]
                    simp [if_neg h8, ih]

lemma skipWs_cons (c : Char) (l : List Char) (h : isWs c = false) :
    skipWs (c :: l) = c :: l := by
  simp [skipWs, List.dropWhile, h]

lemma objUpsert_not_mem (acc : List (String × Json)) (k : String) (v : Json)
    (h : ∀ p ∈ acc, p.1 ≠ k) : objUpsert acc k v = acc ++ [(k, v)] := by
  rw [objUpsert, if_neg]
  intro hc
  simp only [List.any_eq_true, beq_iff_eq] at hc
  obtain ⟨p, hp, he⟩ := hc
  exact h p hp he

lemma serializeMembers_cons_shape (k : String) (v : Json) (tl : List (String × Json)) :
    ∃ t, serializeMembers ((k, v) :: tl) = '"' :: t := by
  cases tl
  · exact ⟨_, rfl⟩
  · exact ⟨_, rfl⟩

/-- String-valued object literal, the shape of every ticket payload. -/
def strObj (kvs : List (String × String)) : Json :=
  .obj (kvs.map (fun p => (p.1, .str p.2)))

lemma parseMembers_ser (kvs : List (String × String)) :
    ∀ (fuel : Nat) (acc : List (String × Json)) (rest : List Char),
    kvs ≠ [] →
    kvs.length + 1 ≤ fuel →
    (∀ p ∈ acc, p.1 ∉ kvs.map Prod.fst) →
    (kvs.map Prod.fst).Nodup →
    parseMembers fuel acc
      (serializeMembers (kvs.map (fun p => (p.1, Json.str p.2))) ++ '\x7d' :: rest)
      = some (acc ++ kvs.map (fun p => (p.1, Json.str p.2)), rest) := by
  induction kvs with
  | nil => intro _ _ _ hne; exact absurd rfl hne
  | cons kv tl ih =>
    intro fuel acc rest _ hfuel hdisj hnodup
    obtain ⟨k, v⟩ := kv
    match fuel, hfuel with
    | f + 1, hfuel =>
    have hf1 : 1 ≤ f := by simp [List.length_cons] at hfuel; omega
    match f, hf1 with
    | g + 1, _ =>
    have hups : objUpsert acc k (Json.str v) = acc ++ [(k, Json.str v)] := by
      apply objUpsert_not_mem
      intro p hp
      intro hk
      exact hdisj p hp (by simp [hk])
    cases tl with
    | nil =>
      simp only [List.map_cons, List.map_nil, serializeMembers, serializeV,
        List.cons_append, List.append_assoc, List.nil_append]
      simp only [parseMembers, parseStrBody_esc, string_mk_data,
        Option.map_some', Option.map_none',
        skipWs_cons ':' _ rfl, skipWs_cons '"' _ rfl]
      simp only [List.cons_append, parseVal, parseStrBody_esc, string_mk_data,
        Option.map_some', Option.map_none']
      simp [hups, skipWs_cons '\x7d' _ rfl]
    | cons m ms =>
      obtain ⟨mk, mv⟩ := m
      have hlen : (mk, mv) :: ms ≠ [] := by simp
      have hfuel' : ((mk, mv) :: ms).length + 1 ≤ g + 1 := by
        simp only [List.length_cons] at hfuel ⊢; omega
      have hk_notin : k ∉ ((mk, mv) :: ms).map Prod.fst := by
        simp only [List.map_cons, List.nodup_cons] at hnodup
        exact hnodup.1
      have hdisj' : ∀ p ∈ acc ++ [(k, Json.str v)],
          p.1 ∉ ((mk, mv) :: ms).map Prod.fst := by
        intro p hp
        rcases List.mem_append.mp hp with hpa | hpk
        · intro hmem
          exact hdisj p hpa (by simp [List.map_cons]; right; simpa using hmem)
        · have : p = (k, Json.str v) := by simpa using hpk
          subst this
          exact hk_notin
      have hnodup' : (((mk, mv) :: ms).map Prod.fst).Nodup := by
        simp only [List.map_cons, List.nodup_cons] at hnodup ⊢
        exact ⟨hnodup.2.1, hnodup.2.2⟩
      obtain ⟨t, ht⟩ := serializeMembers_cons_shape mk (Json.str mv)
        (ms.map (fun p => (p.1, Json.str p.2)))
      have hskip : skipWs ((serializeMembers ((mk, Json.str mv) ::
            ms.map (fun p => (p.1, Json.str p.2)))) ++ '\x7d' :: rest)
          = (serializeMembers ((mk, Json.str mv) ::
            ms.map (fun p => (p.1, Json.str p.2)))) ++ '\x7d' :: rest := by
        rw [ht]
        simp only [List.cons_append]
        exact skipWs_cons '"' _ rfl
      simp only [List.map_cons, serializeMembers, serializeV,
        List.cons_append, List.append_assoc, List.nil_append]
      simp only [parseMembers, parseVal, parseStrBody_esc, string_mk_data,
        Option.map_some', Option.map_none', List.cons_append, List.append_assoc,
        skipWs_cons ':' _ rfl, skipWs_cons '"' _ rfl, skipWs_cons ',' _ rfl]
      rw [hups, hskip]
      rw [show ((mk, Json.str mv) :: ms.map (fun p => (p.1, Json.str p.2)))
          = ((mk, mv) :: ms).map (fun p => (p.1, Json.str p.2)) from by simp]
      rw [ih (g + 1) (acc ++ [(k, Json.str v)]) rest hlen hfuel' hdisj' hnodup']
      simp

lemma serializeMembers_length_ge (ms : List (String × Json)) :
    ms.length ≤ (serializeMembers ms).length := by
  induction ms with
  | nil => simp [serializeMembers]
  | cons kv tl ih =>
    obtain ⟨k, v⟩ := kv
    cases tl with
    | nil => simp [serializeMembers]
    | cons m ms' =>
      simp only [serializeMembers, List.length_append, List.length_cons] at *
      omega

theorem parse_stringify_strObj (kvs : List (String × String)) (hne : kvs ≠ [])
    (hnodup : (kvs.map Prod.fst).Nodup) :
    Json.parse (Json.stringify (strObj kvs)) = some (strObj kvs) := by
  obtain ⟨kv0, tl, rfl⟩ := List.exists_cons_of_ne_nil hne
  obtain ⟨k0, v0⟩ := kv0
  obtain ⟨t, ht⟩ := serializeMembers_cons_shape k0 (Json.str v0)
    (tl.map (fun p => (p.1, Json.str p.2)))
  have hlen : ((k0, v0) :: tl).length + 1 ≤
      (serializeV (strObj ((k0, v0) :: tl))).length + 7 := by
    have h1 := serializeMembers_length_ge (((k0, v0) :: tl).map (fun p => (p.1, Json.str p.2)))
    simp only [strObj, serializeV, List.length_cons, List.length_append,
      List.length_map] at h1 ⊢
    omega
  have hmap : ((k0, v0) :: tl).map (fun p => (p.1, Json.str p.2))
      = (k0, Json.str v0) :: tl.map (fun p => (p.1, Json.str p.2)) := by simp
  have hskip : skipWs (serializeMembers (((k0, v0) :: tl).map
        (fun p => (p.1, Json.str p.2))) ++ '\x7d' :: [])
      = serializeMembers (((k0, v0) :: tl).map
        (fun p => (p.1, Json.str p.2))) ++ '\x7d' :: [] := by
    rw [hmap, ht]
    simp only [List.cons_append]
    exact skipWs_cons '"' _ rfl
  have hshape : serializeMembers (((k0, v0) :: tl).map (fun p => (p.1, Json.str p.2)))
        ++ '\x7d' :: []
      = '"' :: (t ++ '\x7d' :: []) := by
    rw [hmap, ht]; simp
  show Json.parse (String.mk (serializeV (strObj ((k0, v0) :: tl)))) = _
  rw [Json.parse]
  rw [show (String.mk (serializeV (strObj ((k0, v0) :: tl)))).data
      = serializeV (strObj ((k0, v0) :: tl)) from rfl]
  set n := (serializeV (strObj ((k0, v0) :: tl))).length with hn
  rw [show (serializeV (strObj ((k0, v0) :: tl))) = '\x7b' ::
      (serializeMembers (((k0, v0) :: tl).map (fun p => (p.1, Json.str p.2)))
        ++ '\x7d' :: []) from by simp [strObj, serializeV]]
  rw [skipWs_cons '\x7b' _ rfl]
  rw [show n + 8 = (n + 7) + 1 from rfl]
  simp only [parseVal, hskip]
  rw [hshape]
  simp only [show ∀ x : List Char, (match ('"' :: x : List Char) with
    | '\x7d' :: rest2 => some (Json.obj [], rest2)
    | rest1 => (parseMembers (n + 7) [] rest1).map (fun p => (Json.obj p.1, p.2))) =
      (parseMembers (n + 7) [] ('"' :: x)).map (fun p => (Json.obj p.1, p.2))
    from fun x => rfl]
  rw [← hshape]
  rw [parseMembers_ser ((k0, v0) :: tl) _ [] [] (by simp) hlen (by simp) hnodup]
  simp [strObj, skipWs]

theorem parse_stringify_payloadFullT (r e u ts ty h : String) :
    Json.parse (Json.stringify (qrPayloadFullT r e u ts ty h))
      = some (qrPayloadFullT r e u ts ty h) := by
  have := parse_stringify_strObj
    [("registrationId", r), ("eventId", e), ("userId", u), ("timestamp", ts),
     ("type", ty), ("hash", h)] (by simp) (by simp)
  exact this

theorem parse_stringify_payloadDataT (r e u ts ty : String) :
    Json.parse (Json.stringify (qrPayloadDataT r e u ts ty))
      = some (qrPayloadDataT r e u ts ty) := by
  have := parse_stringify_strObj
    [("registrationId", r), ("eventId", e), ("userId", u), ("timestamp", ts),
     ("type", ty)] (by simp) (by simp)
  exact this

/-- Serialization is injective on the signed payload bodies: two
bodies with the same serialization are fieldwise equal (via the parse
round-trip). -/
theorem payloadDataT_stringify_inj (r e u ts ty r' e' u' ts' ty' : String)
    (hser : Json.stringify (qrPayloadDataT r e u ts ty)
      = Json.stringify (qrPayloadDataT r' e' u' ts' ty')) :
    r = r' ∧ e = e' ∧ u = u' ∧ ts = ts' ∧ ty = ty' := by
  have h1 := parse_stringify_payloadDataT r e u ts ty
  have h2 := parse_stringify_payloadDataT r' e' u' ts' ty'
  rw [hser, h2] at h1
  have := Option.some.inj h1
  simp only [qrPayloadDataT, Json.obj.injEq, List.cons.injEq, Prod.mk.injEq,
    Json.str.injEq, and_true] at this
  tauto

/-! ### Scan route: ticket lookup chain, state checks, attendance transitions -/

inductive ChainResult where
  | found (t : Ticket) (reg : Registration) (ev : Event)
  | notFound
  | typeError
deriving DecidableEq

/-- Resolve the `include: registration -> event` relations of a found
ticket.  A dangling relation cannot occur under the store's foreign-key
integrity; it is modelled as the route's generic 500 (`typeError`). -/
def ticketRels (db : DB) (t : Ticket) : ChainResult :=
  match db.registrations.find? (fun r => r.id == t.registrationId) with
  | none => .typeError
  | some reg =>
    match db.events.find? (fun e => e.id == reg.eventId) with
    | none => .typeError
    | some ev => .found t reg ev

/-- The three-step ticket lookup: exact `qrCodeData` match, then by
`registrationId`, then by `ticketNumber` (the extracted id may really be
a ticket number).  A non-string `registrationId` value reaching a
`where` clause makes the Prisma client throw (500, `typeError`). -/
def findTicketChain (db : DB) (raw : String) (ridJ : Option Json) : ChainResult :=
  match db.tickets.find? (fun t => t.qrCodeData == raw) with
  | some t => ticketRels db t
  | none =>
    match ridJ with
    | some (.str rid) =>
      match db.tickets.find? (fun t => t.registrationId == rid) with
      | some t => ticketRels db t
      | none =>
        match db.tickets.find? (fun t => t.ticketNumber == rid) with
        | some t => ticketRels db t
        | none => .notFound
    | _ => .typeError

structure ScanRequest where
  qrData : String
  sessionId : Option String
  action : String
deriving DecidableEq

/-- The structured outcome of one scan request (the HTTP envelope and
display-only fields — participant name/email, the debug echo of the raw
input on 404 — are abstracted away; each constructor corresponds to one
distinct response of the route). -/
inductive ScanOutcome where
  | qrDataRequired
  | invalidFormat
  | missingRegistrationId
  | ticketNotFound
  | registrationNotConfirmed
  | eventNotAvailable
  | eventNotStarted
  | eventEnded
  | alreadyCheckedIn (a : Attendance)
  | checkinSuccess (a : Attendance)
  | noActiveCheckIn
  | checkoutSuccess (a : Attendance)
  | invalidAction
  | internalError
deriving DecidableEq

/-- The check-in / check-out tail of the scan route, after all state
checks passed. -/
def scanAction (now : ℤ) (db : DB) (req : ScanRequest) (ridJ : Option Json) :
    ScanOutcome × DB :=
  let key := sessionKey req.sessionId
  if req.action = "checkin" then
    match ridJ with
    | some (.str rid) =>
      match findExistingAttendance db rid key with
      | some a => (.alreadyCheckedIn a, db)
      | none =>
        let a : Attendance :=
          ⟨db.nextAttendanceId, rid, key, some now, none, .QR_CODE⟩
        (.checkinSuccess a,
         { db with attendances := db.attendances ++ [a],
                   nextAttendanceId := db.nextAttendanceId + 1 })
    | _ => (.internalError, db)
  else if req.action = "checkout" then
    match ridJ with
    | some (.str rid) =>
      match findOpenAttendance db rid key with
      | none => (.noActiveCheckIn, db)
      | some a =>
        (.checkoutSuccess { a with checkOutTime := some now },
         { db with
            attendances := db.attendances.map (fun b =>
              if b.id == a.id then { b with checkOutTime := some now } else b) })
    | _ => (.internalError, db)
  else (.invalidAction, db)

/-- The scan route's logic from `const \x7b registrationId \x7d = qrCodeData`
onwards: extract `registrationId` (destructuring a parsed `null` throws
→ 500), run the ticket lookup chain, check registration status, event
status and the event time window in order, then perform the action. -/
def scanCore (now : ℤ) (db : DB) (req : ScanRequest) : Json → ScanOutcome × DB
  | .null => (.internalError, db)
  | qrCodeData =>
    let ridJ := jGet qrCodeData "registrationId"
    if truthy ridJ then
      match findTicketChain db req.qrData ridJ with
      | .notFound => (.ticketNotFound, db)
      | .typeError => (.internalError, db)
      | .found _t reg ev =>
        if reg.status ≠ .CONFIRMED then (.registrationNotConfirmed, db)
        else if ¬(ev.status = .PUBLISHED ∨ ev.status = .ONGOING) then
          (.eventNotAvailable, db)
        else if now < ev.startDate then (.eventNotStarted, db)
        else if ev.endDate < now then (.eventEnded, db)
        else scanAction now db req ridJ
    else (.missingRegistrationId, db)

/-- The scan route `POST` body, after the session/role guards: require
`qrData`, resolve the raw text, then `scanCore`. -/
def scanPOST (env : Env) (now : ℤ) (db : DB) (req : ScanRequest) : ScanOutcome × DB :=
  if req.qrData = "" then (.qrDataRequired, db)
  else
    match resolveScan env req.qrData with
    | .fail => (.invalidFormat, db)
    | .ok qrCodeData => scanCore now db req qrCodeData

/-! ### Manual check-in route (`POST /api/attendance`) -/

structure ManualRequest where
  registrationId : Option String
  sessionId : Option String
deriving DecidableEq

inductive ManualOutcome where
  | registrationIdRequired
  | registrationNotFound
  | registrationNotConfirmed
  | alreadyCheckedIn (a : Attendance)
  | checkinSuccess (a : Attendance)
deriving DecidableEq

/-- The manual attendance `POST` body, after the session/role guards:
look the registration up, require `CONFIRMED`, then the same
exists-check / create pair as the scan path but with `method: MANUAL`.
(No event status or date checks on this path.) -/
def attendancePOST (now : ℤ) (db : DB) (req : ManualRequest) : ManualOutcome × DB :=
  match req.registrationId with
  | none => (.registrationIdRequired, db)
  | some rid =>
    if rid = "" then (.registrationIdRequired, db)
    else
      match db.registrations.find? (fun r => r.id == rid) with
      | none => (.registrationNotFound, db)
      | some reg =>
        if reg.status ≠ .CONFIRMED then (.registrationNotConfirmed, db)
        else
          let key := sessionKey req.sessionId
          match findExistingAttendance db rid key with
          | some a => (.alreadyCheckedIn a, db)
          | none =>
            let a : Attendance :=
              ⟨db.nextAttendanceId, rid, key, some now, none, .MANUAL⟩
            (.checkinSuccess a,
             { db with attendances := db.attendances ++ [a],
                       nextAttendanceId := db.nextAttendanceId + 1 })

/-! ### Evaluation lemmas for the verifier and the scan route -/

lemma jGet_full_hash (r e u ts ty h : String) :
    jGet (qrPayloadFullT r e u ts ty h) "hash" = some (.str h) := rfl

lemma jGet_full_rid (r e u ts ty h : String) :
    jGet (qrPayloadFullT r e u ts ty h) "registrationId" = some (.str r) := rfl

lemma jGet_full_eid (r e u ts ty h : String) :
    jGet (qrPayloadFullT r e u ts ty h) "eventId" = some (.str e) := rfl

lemma jGet_full_ts (r e u ts ty h : String) :
    jGet (qrPayloadFullT r e u ts ty h) "timestamp" = some (.str ts) := rfl

lemma jRemoveKey_full (r e u ts ty h : String) :
    jRemoveKey (qrPayloadFullT r e u ts ty h) "hash" = qrPayloadDataT r e u ts ty := rfl

/-- Evaluation of `verifyQRCodeData` on the canonical serialization of a full payload
whose `hash`, `registrationId` and `eventId` fields are truthy: the
outcome is decided by the hash comparison and then the age check. -/
lemma verify_payloadFullT (env : Env) (now : ℤ) (r e u ts ty h : String)
    (hr : r ≠ "") (he : e ≠ "") (hh : h ≠ "") :
    verifyQRCodeData env now (Json.stringify (qrPayloadFullT r e u ts ty h)) =
      if h = env.hmac (secretOf env) (Json.stringify (qrPayloadDataT r e u ts ty)) then
        match env.parseDate ts with
        | none => .valid (qrPayloadFullT r e u ts ty h)
        | some t =>
          if hoursDiffExceeds24 (now - t) then .invalid "QR code has expired"
          else .valid (qrPayloadFullT r e u ts ty h)
      else .invalid "QR code has been tampered with" := by
  rw [verifyQRCodeData, parse_stringify_payloadFullT]
  have htr : (truthy (jGet (qrPayloadFullT r e u ts ty h) "hash")
      && truthy (jGet (qrPayloadFullT r e u ts ty h) "registrationId")
      && truthy (jGet (qrPayloadFullT r e u ts ty h) "eventId")) = true := by
    rw [jGet_full_hash, jGet_full_rid, jGet_full_eid]
    simp [truthy, hr, he, hh]
  simp only [qrPayloadFullT] at htr ⊢
  rw [if_pos htr]
  rw [show jGet (.obj [("registrationId", .str r), ("eventId", .str e), ("userId", .str u),
      ("timestamp", .str ts), ("type", .str ty), ("hash", .str h)]) "hash"
    = some (.str h) from rfl]
  rw [show jRemoveKey (.obj [("registrationId", .str r), ("eventId", .str e),
      ("userId", .str u), ("timestamp", .str ts), ("type", .str ty), ("hash", .str h)]) "hash"
    = qrPayloadDataT r e u ts ty from rfl]
  rw [show jGet (.obj [("registrationId", .str r), ("eventId", .str e), ("userId", .str u),
      ("timestamp", .str ts), ("type", .str ty), ("hash", .str h)]) "timestamp"
    = some (.str ts) from rfl]
  rw [show dateOfJson env (some (.str ts)) = env.parseDate ts from rfl]

lemma scanCore_ne_null (now : ℤ) (db : DB) (req : ScanRequest) (j : Json)
    (hnn : j ≠ .null) :
    scanCore now db req j =
      (if truthy (jGet j "registrationId") then
        match findTicketChain db req.qrData (jGet j "registrationId") with
        | .notFound => (.ticketNotFound, db)
        | .typeError => (.internalError, db)
        | .found _t reg ev =>
          if reg.status ≠ .CONFIRMED then (.registrationNotConfirmed, db)
          else if ¬(ev.status = .PUBLISHED ∨ ev.status = .ONGOING) then
            (.eventNotAvailable, db)
          else if now < ev.startDate then (.eventNotStarted, db)
          else if ev.endDate < now then (.eventEnded, db)
          else scanAction now db req (jGet j "registrationId")
       else (.missingRegistrationId, db)) := by
  cases j with
  | null => exact absurd rfl hnn
  | bool b => rfl
  | num m e => rfl
  | str s => rfl
  | arr xs => rfl
  | obj kvs => rfl

lemma scanPOST_ok (env : Env) (now : ℤ) (db : DB) (req : ScanRequest) (j : Json)
    (hq : req.qrData ≠ "") (hres : resolveScan env req.qrData = .ok j) :
    scanPOST env now db req = scanCore now db req j := by
  rw [scanPOST, if_neg hq, hres]

/-- After a successful resolution and ticket lookup, the scan route is
exactly the ordered state-check cascade followed by the action. -/
lemma scanPOST_found (env : Env) (now : ℤ) (db : DB) (req : ScanRequest)
    (j : Json) (t : Ticket) (reg : Registration) (ev : Event)
    (hq : req.qrData ≠ "") (hres : resolveScan env req.qrData = .ok j)
    (hnn : j ≠ .null) (htr : truthy (jGet j "registrationId") = true)
    (hchain : findTicketChain db req.qrData (jGet j "registrationId") = .found t reg ev) :
    scanPOST env now db req =
      (if reg.status ≠ .CONFIRMED then (.registrationNotConfirmed, db)
       else if ¬(ev.status = .PUBLISHED ∨ ev.status = .ONGOING) then
         (.eventNotAvailable, db)
       else if now < ev.startDate then (.eventNotStarted, db)
       else if ev.endDate < now then (.eventEnded, db)
       else scanAction now db req (jGet j "registrationId")) := by
  rw [scanPOST_ok env now db req j hq hres, scanCore_ne_null now db req j hnn,
    if_pos htr, hchain]

/-! ### Concrete fixtures used by witnesses and counterexamples -/

/-- Environment with a constant keyed hash. -/
def envConst : Env :=
  ⟨some "test-secret", fun _ _ => "h", fun _ => some 0, fun s => s, fun _ => true⟩

/-- Environment whose keyed hash prefixes the message, hence is
injective in the message for every fixed key. -/
def envInj : Env :=
  ⟨some "test-secret", fun _ m => "H" ++ m, fun _ => some 0, fun s => s, fun _ => true⟩

lemma envInj_hmac_injective : Function.Injective (envInj.hmac (secretOf envInj)) := by
  intro a b hab
  have hd := congrArg String.data hab
  simp only [envInj, String.data_append] at hd
  have := List.append_cancel_left hd
  exact String.ext this

def regW : Registration := ⟨"r1", .CONFIRMED, "e1", "u1"⟩

def evW : Event := ⟨"e1", .PUBLISHED, 0, 1000⟩

def tkW : Ticket := ⟨"t1", "r1", "TK-1", "QR1"⟩

def dbW : DB := ⟨[regW], [evW], [tkW], [], 0⟩

/-- Event that has not started yet at `now = 500`. -/
def evF : Event := ⟨"e1", .PUBLISHED, 2000, 3000⟩

def dbF : DB := ⟨[regW], [evF], [tkW], [], 0⟩

def dbEmpty : DB := ⟨[], [], [], [], 0⟩

/-! ### C1 — sign-then-verify round trip -/

/-- C1 (counterexample): the claim quantifies over every triple of
payload fields, but a payload generated with an empty `registrationId`
fails verification with the format error (the route's falsy check
rejects it), so verification does not succeed for every triple signed
with the same secret within 24 hours. -/
theorem c1_empty_registrationId_cex :
    verifyQRCodeData envConst 0 (generateQRCodeData envConst "" "e1" "u1" "t0")
      = .invalid "Invalid QR code format" := rfl

/-- C1 (amended): for every triple with nonempty `registrationId` and
`eventId` (and a nonempty keyed-hash digest, true of hex HMAC output),
verifying the payload produced by `generateQRCodeData` with the same
secret within 24 hours of issuance succeeds and returns the signed
fields `registrationId`, `eventId`, `userId`, `timestamp` and `type`
unchanged. -/
theorem c1_sign_verify_roundtrip (env : Env) (now tIss : ℤ) (r e u ts : String)
    (hr : r ≠ "") (he : e ≠ "")
    (hh : env.hmac (secretOf env) (Json.stringify (qrPayloadData r e u ts)) ≠ "")
    (hts : env.parseDate ts = some tIss)
    (hage : now - tIss ≤ 24 * 3600000) :
    verifyQRCodeData env now (generateQRCodeData env r e u ts)
      = .valid (qrPayloadFull r e u ts
          (env.hmac (secretOf env) (Json.stringify (qrPayloadData r e u ts)))) := by
  have hexp : hoursDiffExceeds24 (now - tIss) = false := by
    simp only [hoursDiffExceeds24, decide_eq_false_iff_not, not_lt]
    omega
  rw [show generateQRCodeData env r e u ts
      = Json.stringify (qrPayloadFullT r e u ts "EVENT_TICKET"
          (env.hmac (secretOf env) (Json.stringify (qrPayloadData r e u ts)))) from rfl]
  rw [verify_payloadFullT env now r e u ts "EVENT_TICKET" _ hr he hh]
  rw [if_pos (show env.hmac (secretOf env) (Json.stringify (qrPayloadData r e u ts))
      = env.hmac (secretOf env) (Json.stringify (qrPayloadDataT r e u ts "EVENT_TICKET"))
      from rfl)]
  rw [hts]
  simp only [hexp, Bool.false_eq_true, if_false]
  rfl

/-- C1 (witness). -/
theorem c1_sign_verify_roundtrip_witness :
    verifyQRCodeData envConst 86400000 (generateQRCodeData envConst "r1" "e1" "u1" "t0")
      = .valid (qrPayloadFull "r1" "e1" "u1" "t0" "h") :=
  c1_sign_verify_roundtrip envConst 86400000 0 "r1" "e1" "u1" "t0"
    (by decide) (by decide) (by decide) rfl (by decide)

/-! ### C5 — 24-hour expiry boundary -/

/-- C5: a correctly signed payload is rejected as expired exactly when
the elapsed time strictly exceeds 24 hours (`now - issuedAt >
24*3600000` ms, the exact-arithmetic reading of the source's
`hoursDiff > 24`; see `hoursDiff_gt_24_iff`); at exactly 24 hours it is
still valid. -/
theorem c5_expiry_strictly_after_24h (env : Env) (now tIss : ℤ) (r e u ts : String)
    (hr : r ≠ "") (he : e ≠ "")
    (hh : env.hmac (secretOf env) (Json.stringify (qrPayloadData r e u ts)) ≠ "")
    (hts : env.parseDate ts = some tIss) :
    (verifyQRCodeData env now (generateQRCodeData env r e u ts)
        = .invalid "QR code has expired" ↔ 24 * 3600000 < now - tIss)
    ∧ (now - tIss = 24 * 3600000 →
       verifyQRCodeData env now (generateQRCodeData env r e u ts)
        = .valid (qrPayloadFull r e u ts
            (env.hmac (secretOf env) (Json.stringify (qrPayloadData r e u ts))))) := by
  have hbase : verifyQRCodeData env now (generateQRCodeData env r e u ts)
      = if hoursDiffExceeds24 (now - tIss) then VerifyResult.invalid "QR code has expired"
        else .valid (qrPayloadFullT r e u ts "EVENT_TICKET"
          (env.hmac (secretOf env) (Json.stringify (qrPayloadData r e u ts)))) := by
    rw [show generateQRCodeData env r e u ts
        = Json.stringify (qrPayloadFullT r e u ts "EVENT_TICKET"
            (env.hmac (secretOf env) (Json.stringify (qrPayloadData r e u ts)))) from rfl]
    rw [verify_payloadFullT env now r e u ts "EVENT_TICKET" _ hr he hh]
    rw [if_pos (show env.hmac (secretOf env) (Json.stringify (qrPayloadData r e u ts))
        = env.hmac (secretOf env) (Json.stringify (qrPayloadDataT r e u ts "EVENT_TICKET"))
        from rfl)]
    rw [hts]
  constructor
  · rw [hbase]
    by_cases hc : 24 * 3600000 < now - tIss
    · simp only [hoursDiffExceeds24, hc, decide_True, if_true]
    · simp only [hoursDiffExceeds24, hc, decide_False, Bool.false_eq_true, if_false]
      simp only [hc, iff_false]
      simp
  · intro hb
    rw [hbase]
    rw [show hoursDiffExceeds24 (now - tIss) = false from by
      simp only [hoursDiffExceeds24, decide_eq_false_iff_not, not_lt]
      omega]
    simp only [Bool.false_eq_true, if_false]
    rfl

/-- C5 (witness): at exactly 24 hours the payload verifies; one
millisecond later it is expired. -/
theorem c5_expiry_strictly_after_24h_witness :
    verifyQRCodeData envConst 86400000 (generateQRCodeData envConst "r1" "e1" "u1" "t0")
      = .valid (qrPayloadFull "r1" "e1" "u1" "t0" "h")
    ∧ verifyQRCodeData envConst 86400001 (generateQRCodeData envConst "r1" "e1" "u1" "t0")
      = .invalid "QR code has expired" :=
  ⟨(c5_expiry_strictly_after_24h envConst 86400000 0 "r1" "e1" "u1" "t0"
      (by decide) (by decide) (by decide) rfl).2 (by decide),
   (c5_expiry_strictly_after_24h envConst 86400001 0 "r1" "e1" "u1" "t0"
      (by decide) (by decide) (by decide) rfl).1.mpr (by decide)⟩

/-! ### C6 — single-character tampering -/

def setCharAt (s : String) (i : Nat) (c : Char) : String := String.mk (s.data.set i c)

/-- C6 (counterexample): the claim says any single-character change
yields the Tampered error, but flipping the structural first character
`\x7b` of a validly signed payload makes `JSON.parse` throw, so
verification fails with the format error instead of Tampered. -/
theorem c6_structural_flip_cex :
    setCharAt (generateQRCodeData envConst "r1" "e1" "u1" "t0") 0 'X'
      ≠ generateQRCodeData envConst "r1" "e1" "u1" "t0"
    ∧ verifyQRCodeData envConst 0
        (setCharAt (generateQRCodeData envConst "r1" "e1" "u1" "t0") 0 'X')
      = .invalid "Invalid QR code format" := by
  constructor
  · decide
  · rfl

/-- C6 (amended): a single-character change to a validly signed payload
yields the Tampered error whenever the modified string is still the
serialization of a payload whose signed fields or hash differ from the
original — in particular any change confined to one of the five field
values or to the hash value — assuming the keyed hash is collision-free
and produces nonempty digests; changes that break the JSON structure or
empty a required field yield the format error instead (see the
counterexample). -/
theorem c6_tamper_detected (env : Env) (now : ℤ)
    (r e u ts ty r' e' u' ts' ty' h' : String)
    (hinj : Function.Injective (env.hmac (secretOf env)))
    (hne : ¬(r' = r ∧ e' = e ∧ u' = u ∧ ts' = ts ∧ ty' = ty))
    (hr' : r' ≠ "") (he' : e' ≠ "") (hr : r ≠ "") (he : e ≠ "")
    (hh : env.hmac (secretOf env) (Json.stringify (qrPayloadDataT r e u ts ty)) ≠ "")
    (hh' : h' ≠ "")
    (hhne : h' ≠ env.hmac (secretOf env) (Json.stringify (qrPayloadDataT r e u ts ty))) :
    (verifyQRCodeData env now (Json.stringify (qrPayloadFullT r' e' u' ts' ty'
        (env.hmac (secretOf env) (Json.stringify (qrPayloadDataT r e u ts ty)))))
      = .invalid "QR code has been tampered with")
    ∧ (verifyQRCodeData env now (Json.stringify (qrPayloadFullT r e u ts ty h'))
      = .invalid "QR code has been tampered with") := by
  constructor
  · rw [verify_payloadFullT env now r' e' u' ts' ty' _ hr' he' hh]
    rw [if_neg]
    intro hcol
    have hser := hinj hcol
    have := payloadDataT_stringify_inj r e u ts ty r' e' u' ts' ty' hser
    exact hne ⟨this.1.symm, this.2.1.symm, this.2.2.1.symm, this.2.2.2.1.symm,
      this.2.2.2.2.symm⟩
  · rw [verify_payloadFullT env now r e u ts ty h' hr he hh']
    rw [if_neg hhne]

/-- C6 (witness): with an injective keyed hash, changing the
`registrationId` field value while keeping the original hash, or
changing the hash value while keeping the fields, both yield Tampered. -/
theorem c6_tamper_detected_witness :
    (verifyQRCodeData envInj 0 (Json.stringify (qrPayloadFullT "r2" "e1" "u1" "t0"
        "EVENT_TICKET" (envInj.hmac (secretOf envInj)
          (Json.stringify (qrPayloadDataT "r1" "e1" "u1" "t0" "EVENT_TICKET")))))
      = .invalid "QR code has been tampered with")
    ∧ (verifyQRCodeData envInj 0 (Json.stringify (qrPayloadFullT "r1" "e1" "u1" "t0"
        "EVENT_TICKET" "deadbeef"))
      = .invalid "QR code has been tampered with") :=
  c6_tamper_detected envInj 0 "r1" "e1" "u1" "t0" "EVENT_TICKET"
    "r2" "e1" "u1" "t0" "EVENT_TICKET" "deadbeef"
    envInj_hmac_injective (by decide) (by decide) (by decide) (by decide) (by decide)
    (by decide) (by decide) (by decide)

/-! ### C9 — fallback signing secret -/

/-- C9: the spec requires generation and verification to fail closed
when the process-wide secret is unset and to never use a fallback
constant; the code instead silently substitutes the constant
`'fallback-secret'` as the HMAC key (also for the empty string) and
generation succeeds, producing a payload signed with it, and
verification recomputes the expected hash with the same fallback key
and accepts such payloads. -/
theorem c9_fallback_secret_used (hm : String → String → String)
    (pd : String → Option ℤ) (b64 : String → String) (uok : String → Bool)
    (now tIss : ℤ) (r e u ts : String)
    (hr : r ≠ "") (he : e ≠ "")
    (hh : hm "fallback-secret" (Json.stringify (qrPayloadData r e u ts)) ≠ "")
    (hts : pd ts = some tIss) (hage : now - tIss ≤ 24 * 3600000) :
    secretOf ⟨none, hm, pd, b64, uok⟩ = "fallback-secret"
    ∧ secretOf ⟨some "", hm, pd, b64, uok⟩ = "fallback-secret"
    ∧ generateQRCodeData ⟨none, hm, pd, b64, uok⟩ r e u ts
      = Json.stringify (qrPayloadFull r e u ts
          (hm "fallback-secret" (Json.stringify (qrPayloadData r e u ts))))
    ∧ verifyQRCodeData ⟨none, hm, pd, b64, uok⟩ now
        (generateQRCodeData ⟨none, hm, pd, b64, uok⟩ r e u ts)
      = .valid (qrPayloadFull r e u ts
          (hm "fallback-secret" (Json.stringify (qrPayloadData r e u ts)))) := by
  refine ⟨rfl, rfl, rfl, ?_⟩
  have hexp : hoursDiffExceeds24 (now - tIss) = false := by
    simp only [hoursDiffExceeds24, decide_eq_false_iff_not, not_lt]
    omega
  rw [show generateQRCodeData ⟨none, hm, pd, b64, uok⟩ r e u ts
      = Json.stringify (qrPayloadFullT r e u ts "EVENT_TICKET"
          (hm "fallback-secret" (Json.stringify (qrPayloadData r e u ts)))) from rfl]
  rw [verify_payloadFullT ⟨none, hm, pd, b64, uok⟩ now r e u ts "EVENT_TICKET" _ hr he hh]
  rw [if_pos (show hm "fallback-secret" (Json.stringify (qrPayloadData r e u ts))
      = Env.hmac ⟨none, hm, pd, b64, uok⟩ (secretOf ⟨none, hm, pd, b64, uok⟩)
          (Json.stringify (qrPayloadDataT r e u ts "EVENT_TICKET")) from rfl)]
  rw [show Env.parseDate ⟨none, hm, pd, b64, uok⟩ ts = pd ts from rfl, hts]
  simp only [hexp, Bool.false_eq_true, if_false]
  rfl

/-- C9 (witness): with the secret unset, a concrete payload is generated
and verified using the fallback constant key. -/
theorem c9_fallback_secret_used_witness :
    secretOf ⟨none, fun _ _ => "h", fun _ => some 0, fun s => s, fun _ => true⟩ = "fallback-secret"
    ∧ secretOf ⟨some "", fun _ _ => "h", fun _ => some 0, fun s => s, fun _ => true⟩ = "fallback-secret"
    ∧ generateQRCodeData ⟨none, fun _ _ => "h", fun _ => some 0, fun s => s, fun _ => true⟩ "r1" "e1" "u1" "t0"
      = Json.stringify (qrPayloadFull "r1" "e1" "u1" "t0" "h")
    ∧ verifyQRCodeData ⟨none, fun _ _ => "h", fun _ => some 0, fun s => s, fun _ => true⟩ 0
        (generateQRCodeData ⟨none, fun _ _ => "h", fun _ => some 0, fun s => s, fun _ => true⟩ "r1" "e1" "u1" "t0")
      = .valid (qrPayloadFull "r1" "e1" "u1" "t0" "h") :=
  c9_fallback_secret_used (fun _ _ => "h") (fun _ => some 0) (fun s => s) (fun _ => true)
    0 0 "r1" "e1" "u1" "t0" (by decide) (by decide) (by decide) rfl (by decide)

/-! ### C7 — URL resolution path -/

/-- C8 (counterexample): the claim says every string in the identifier
class resolves to itself, but `"123"` matches `^[a-zA-Z0-9-_]+$` and is
also valid JSON, so the JSON path wins first: the parsed value is the
number 123, it has no `registrationId` property, and the scan fails
with the missing-registration-id error instead of resolving to
`"123"`. -/
theorem c8_numeric_string_cex :
    isIdString "123" = true
    ∧ Json.parse "123" = some (.num 123 0)
    ∧ resolveScan envConst "123" = .ok (.num 123 0)
    ∧ scanPOST envConst 0 dbEmpty ⟨"123", none, "checkin"⟩
      = (.missingRegistrationId, dbEmpty) := by
  refine ⟨rfl, rfl, rfl, rfl⟩

/-- C8 (amended): a raw scan string matching the identifier class that
is not valid JSON (ruling out digit/exponent strings and the literals
`true`/`false`/`null`) and does not begin with `http` (which would take
the URL branch and throw) resolves as the whole string taken as the
candidate `registrationId`. -/
theorem c8_bare_identifier (env : Env) (s : String)
    (hjson : Json.parse s = none)
    (hhttp : strStartsWith s "http" = false)
    (hid : isIdString s = true) :
    resolveScan env s = .ok (.obj [("registrationId", .str s)]) := by
  rw [resolveScan, hjson, if_neg (by rw [hhttp]; exact Bool.false_ne_true), if_pos hid]

/-- C8 (witness). -/
theorem c8_bare_identifier_witness :
    resolveScan envConst "r1" = .ok (.obj [("registrationId", .str "r1")]) :=
  c8_bare_identifier envConst "r1" rfl rfl rfl

/-! ### C4 — state preconditions before any attendance mutation -/

/-- C4: once the scan resolves and a ticket is found, the action
proceeds to the attendance step only if the registration is CONFIRMED,
the event is PUBLISHED or ONGOING, and the current time lies within
`[startDate, endDate]`; each violated precondition fails with its
specific error, before any attendance mutation (the state is returned
unchanged); in particular a scan before `startDate` yields the
event-not-started error and a scan after `endDate` yields the
event-ended error. -/
theorem c4_scan_state_preconditions (env : Env) (now : ℤ) (db : DB)
    (req : ScanRequest) (j : Json) (t : Ticket) (reg : Registration) (ev : Event)
    (hq : req.qrData ≠ "")
    (hres : resolveScan env req.qrData = .ok j)
    (hnn : j ≠ .null)
    (htr : truthy (jGet j "registrationId") = true)
    (hchain : findTicketChain db req.qrData (jGet j "registrationId")
      = .found t reg ev) :
    (reg.status ≠ .CONFIRMED →
      scanPOST env now db req = (.registrationNotConfirmed, db))
    ∧ (reg.status = .CONFIRMED → ¬(ev.status = .PUBLISHED ∨ ev.status = .ONGOING) →
      scanPOST env now db req = (.eventNotAvailable, db))
    ∧ (reg.status = .CONFIRMED → (ev.status = .PUBLISHED ∨ ev.status = .ONGOING) →
      now < ev.startDate → scanPOST env now db req = (.eventNotStarted, db))
    ∧ (reg.status = .CONFIRMED → (ev.status = .PUBLISHED ∨ ev.status = .ONGOING) →
      ev.startDate ≤ now → ev.endDate < now →
      scanPOST env now db req = (.eventEnded, db))
    ∧ (¬(reg.status = .CONFIRMED ∧ (ev.status = .PUBLISHED ∨ ev.status = .ONGOING)
          ∧ ev.startDate ≤ now ∧ now ≤ ev.endDate) →
      (scanPOST env now db req).2 = db
      ∧ ((scanPOST env now db req).1 = .registrationNotConfirmed
        ∨ (scanPOST env now db req).1 = .eventNotAvailable
        ∨ (scanPOST env now db req).1 = .eventNotStarted
        ∨ (scanPOST env now db req).1 = .eventEnded)) := by
  rw [scanPOST_found env now db req j t reg ev hq hres hnn htr hchain]
  refine ⟨?_, ?_, ?_, ?_, ?_⟩
  · intro h1
    rw [if_pos h1]
  · intro h1 h2
    rw [if_neg (by simp [h1]), if_pos h2]
  · intro h1 h2 h3
    rw [if_neg (by simp [h1]), if_neg (by simp [h2]), if_pos h3]
  · intro h1 h2 h3 h4
    rw [if_neg (by simp [h1]), if_neg (by simp [h2]), if_neg (by omega), if_pos h4]
  · intro hviol
    by_cases h1 : reg.status = .CONFIRMED
    · rw [if_neg (by simp [h1])]
      by_cases h2 : ev.status = .PUBLISHED ∨ ev.status = .ONGOING
      · rw [if_neg (by simp [h2])]
        by_cases h3 : now < ev.startDate
        · rw [if_pos h3]
          exact ⟨rfl, Or.inr (Or.inr (Or.inl rfl))⟩
        · rw [if_neg h3]
          have h4 : ev.endDate < now := by
            rcases not_and_or.mp hviol with hc | hc
            · exact absurd h1 hc
            · rcases not_and_or.mp hc with hc2 | hc2
              · exact absurd h2 hc2
              · rcases not_and_or.mp hc2 with hc3 | hc3
                · omega
                · omega
          rw [if_pos h4]
          exact ⟨rfl, Or.inr (Or.inr (Or.inr rfl))⟩
      · rw [if_pos h2]
        exact ⟨rfl, Or.inr (Or.inl rfl)⟩
    · rw [if_pos h1]
      exact ⟨rfl, Or.inl rfl⟩

/-- C4 (witness): with a CONFIRMED registration on a PUBLISHED event,
scanning before `startDate` yields event-not-started, and scanning
after `endDate` yields event-ended, leaving the state unchanged. -/
theorem c4_scan_state_preconditions_witness :
    scanPOST envConst 500 dbF ⟨"r1", none, "checkin"⟩ = (.eventNotStarted, dbF)
    ∧ scanPOST envConst 5000 dbF ⟨"r1", none, "checkin"⟩ = (.eventEnded, dbF) :=
  ⟨(c4_scan_state_preconditions envConst 500 dbF ⟨"r1", none, "checkin"⟩
      (.obj [("registrationId", .str "r1")]) tkW regW evF
      (by decide) rfl (by simp) rfl rfl).2.2.1 rfl (Or.inl rfl) (by decide),
   (c4_scan_state_preconditions envConst 5000 dbF ⟨"r1", none, "checkin"⟩
      (.obj [("registrationId", .str "r1")]) tkW regW evF
      (by decide) rfl (by simp) rfl rfl).2.2.2.1 rfl (Or.inl rfl) (by decide) (by decide)⟩

/-! ### C2 — check-in rejected iff an attendance row already exists -/

/-- C2: for a check-in request that has passed the preceding checks (on
the scan path: resolution, ticket lookup, CONFIRMED registration,
PUBLISHED/ONGOING event, time within the event window; on the manual
path: registration found and CONFIRMED), the operation fails with the
already-checked-in error if and only if an Attendance row already
exists for `(registrationId, sessionId-or-null)` — open or completed
alike — and otherwise appends exactly one new row with `checkInTime =
now`, `checkOutTime` unset, and method `QR_CODE` on the scan path,
`MANUAL` on the manual path. -/
theorem c2_checkin_already_iff (env : Env) (now : ℤ) (db1 db2 : DB)
    (req : ScanRequest) (j : Json) (rid : String) (t : Ticket) (reg : Registration)
    (ev : Event) (mreq : ManualRequest) (mrid : String) (mreg : Registration)
    (hq : req.qrData ≠ "") (hres : resolveScan env req.qrData = .ok j)
    (hrid : jGet j "registrationId" = some (.str rid)) (hrne : rid ≠ "")
    (hchain : findTicketChain db1 req.qrData (jGet j "registrationId")
      = .found t reg ev)
    (hconf : reg.status = .CONFIRMED)
    (hst : ev.status = .PUBLISHED ∨ ev.status = .ONGOING)
    (hs1 : ev.startDate ≤ now) (hs2 : now ≤ ev.endDate)
    (hact : req.action = "checkin")
    (hm1 : mreq.registrationId = some mrid) (hm2 : mrid ≠ "")
    (hm3 : db2.registrations.find? (fun x => x.id == mrid) = some mreg)
    (hm4 : mreg.status = .CONFIRMED) :
    ((∀ a, scanPOST env now db1 req = (.alreadyCheckedIn a, db1)
        ↔ findExistingAttendance db1 rid (sessionKey req.sessionId) = some a)
     ∧ (findExistingAttendance db1 rid (sessionKey req.sessionId) = none →
        scanPOST env now db1 req
          = (.checkinSuccess ⟨db1.nextAttendanceId, rid, sessionKey req.sessionId,
                some now, none, .QR_CODE⟩,
             { db1 with
                attendances := db1.attendances ++ [⟨db1.nextAttendanceId, rid,
                  sessionKey req.sessionId, some now, none, .QR_CODE⟩],
                nextAttendanceId := db1.nextAttendanceId + 1 })))
    ∧ ((∀ a, attendancePOST now db2 mreq = (.alreadyCheckedIn a, db2)
        ↔ findExistingAttendance db2 mrid (sessionKey mreq.sessionId) = some a)
     ∧ (findExistingAttendance db2 mrid (sessionKey mreq.sessionId) = none →
        attendancePOST now db2 mreq
          = (.checkinSuccess ⟨db2.nextAttendanceId, mrid, sessionKey mreq.sessionId,
                some now, none, .MANUAL⟩,
             { db2 with
                attendances := db2.attendances ++ [⟨db2.nextAttendanceId, mrid,
                  sessionKey mreq.sessionId, some now, none, .MANUAL⟩],
                nextAttendanceId := db2.nextAttendanceId + 1 }))) := by
  have hnn : j ≠ .null := by
    intro h
    rw [h] at hrid
    simp [jGet] at hrid
  have htr : truthy (jGet j "registrationId") = true := by
    rw [hrid]
    simp [truthy, hrne]
  have hscan : scanPOST env now db1 req
      = scanAction now db1 req (some (.str rid)) := by
    rw [scanPOST_found env now db1 req j t reg ev hq hres hnn htr hchain]
    rw [if_neg (by simp [hconf]), if_neg (by simp [hst]), if_neg (by omega),
      if_neg (by omega), hrid]
  have hman : ∀ o,
      findExistingAttendance db2 mrid (sessionKey mreq.sessionId) = o →
      attendancePOST now db2 mreq
        = match o with
          | some a => (.alreadyCheckedIn a, db2)
          | none =>
            (.checkinSuccess ⟨db2.nextAttendanceId, mrid, sessionKey mreq.sessionId,
                some now, none, .MANUAL⟩,
             { db2 with
                attendances := db2.attendances ++ [⟨db2.nextAttendanceId, mrid,
                  sessionKey mreq.sessionId, some now, none, .MANUAL⟩],
                nextAttendanceId := db2.nextAttendanceId + 1 }) := by
    intro o hfa
    simp only [attendancePOST]
    rw [hm1]
    simp only [if_neg hm2]
    rw [hm3]
    simp only [if_neg (show ¬ mreg.status ≠ RegStatus.CONFIRMED from not_not_intro hm4)]
    rw [hfa]
  refine ⟨⟨?_, ?_⟩, ?_, ?_⟩
  · intro a
    rw [hscan]
    cases hfa : findExistingAttendance db1 rid (sessionKey req.sessionId) with
    | some a' =>
      simp only [scanAction, if_pos hact, hfa]
      simp [Prod.ext_iff]
    | none =>
      simp only [scanAction, if_pos hact, hfa]
      simp
  · intro hfa
    rw [hscan]
    simp only [scanAction, if_pos hact, hfa]
  · intro a
    cases hfa : findExistingAttendance db2 mrid (sessionKey mreq.sessionId) with
    | some a' =>
      rw [hman (some a') hfa]
      simp [Prod.ext_iff]
    | none =>
      rw [hman none hfa]
      simp
  · intro hfa
    rw [hman none hfa]

/-- C2 (witness): first scan check-in and first manual check-in on a
fresh store both create exactly one open row with the path's method. -/
theorem c2_checkin_already_iff_witness :
    scanPOST envConst 500 dbW ⟨"r1", none, "checkin"⟩
      = (.checkinSuccess ⟨dbW.nextAttendanceId, "r1", sessionKey (none : Option String),
            some 500, none, .QR_CODE⟩,
         { dbW with
            attendances := dbW.attendances ++ [⟨dbW.nextAttendanceId, "r1",
              sessionKey (none : Option String), some 500, none, .QR_CODE⟩],
            nextAttendanceId := dbW.nextAttendanceId + 1 })
    ∧ attendancePOST 500 dbW ⟨some "r1", none⟩
      = (.checkinSuccess ⟨dbW.nextAttendanceId, "r1", sessionKey (none : Option String),
            some 500, none, .MANUAL⟩,
         { dbW with
            attendances := dbW.attendances ++ [⟨dbW.nextAttendanceId, "r1",
              sessionKey (none : Option String), some 500, none, .MANUAL⟩],
            nextAttendanceId := dbW.nextAttendanceId + 1 }) :=
  ⟨(c2_checkin_already_iff envConst 500 dbW dbW ⟨"r1", none, "checkin"⟩
      (.obj [("registrationId", .str "r1")]) "r1" tkW regW evW ⟨some "r1", none⟩
      "r1" regW (by decide) rfl rfl (by decide) rfl rfl (Or.inl rfl)
      (by decide) (by decide) rfl rfl (by decide) rfl rfl).1.2 rfl,
   (c2_checkin_already_iff envConst 500 dbW dbW ⟨"r1", none, "checkin"⟩
      (.obj [("registrationId", .str "r1")]) "r1" tkW regW evW ⟨some "r1", none⟩
      "r1" regW (by decide) rfl rfl (by decide) rfl rfl (Or.inl rfl)
      (by decide) (by decide) rfl rfl (by decide) rfl rfl).2.2 rfl⟩

/-! ### C3 — check-out requires an open check-in -/

/-- C3: for a check-out request that has passed the preceding checks,
the operation fails with the no-open-check-in error if and only if no
Attendance row for `(registrationId, sessionId-or-null)` is open
(`checkInTime` set, `checkOutTime` null); otherwise it sets
`checkOutTime = now` on the open row that was found.  In particular,
check-out before any check-in for the pair always fails with that error
(no row at all means no open row). -/
theorem c3_checkout_requires_open (env : Env) (now : ℤ) (db : DB)
    (req : ScanRequest) (j : Json) (rid : String) (t : Ticket) (reg : Registration)
    (ev : Event)
    (hq : req.qrData ≠ "") (hres : resolveScan env req.qrData = .ok j)
    (hrid : jGet j "registrationId" = some (.str rid)) (hrne : rid ≠ "")
    (hchain : findTicketChain db req.qrData (jGet j "registrationId")
      = .found t reg ev)
    (hconf : reg.status = .CONFIRMED)
    (hst : ev.status = .PUBLISHED ∨ ev.status = .ONGOING)
    (hs1 : ev.startDate ≤ now) (hs2 : now ≤ ev.endDate)
    (hact : req.action = "checkout") :
    (scanPOST env now db req = (.noActiveCheckIn, db)
      ↔ findOpenAttendance db rid (sessionKey req.sessionId) = none)
    ∧ (∀ a, findOpenAttendance db rid (sessionKey req.sessionId) = some a →
       scanPOST env now db req
        = (.checkoutSuccess { a with checkOutTime := some now },
           { db with
              attendances := db.attendances.map (fun b =>
                if b.id == a.id then { b with checkOutTime := some now } else b) })) := by
  have hnn : j ≠ .null := by
    intro h
    rw [h] at hrid
    simp [jGet] at hrid
  have htr : truthy (jGet j "registrationId") = true := by
    rw [hrid]
    simp [truthy, hrne]
  have hscan : scanPOST env now db req
      = scanAction now db req (some (.str rid)) := by
    rw [scanPOST_found env now db req j t reg ev hq hres hnn htr hchain]
    rw [if_neg (by simp [hconf]), if_neg (by simp [hst]), if_neg (by omega),
      if_neg (by omega), hrid]
  have hco : req.action = "checkin" → False := by
    intro h
    rw [hact] at h
    exact absurd h (by decide)
  constructor
  · rw [hscan]
    cases hfa : findOpenAttendance db rid (sessionKey req.sessionId) with
    | some a' =>
      simp only [scanAction, if_neg hco, if_pos hact, hfa]
      simp
    | none =>
      simp only [scanAction, if_neg hco, if_pos hact, hfa]
  · intro a hfa
    rw [hscan]
    simp only [scanAction, if_neg hco, if_pos hact, hfa]

/-- C3 (witness): check-out with no prior check-in fails with the
no-open-check-in error. -/
theorem c3_checkout_requires_open_witness :
    scanPOST envConst 500 dbW ⟨"r1", none, "checkout"⟩ = (.noActiveCheckIn, dbW) :=
  (c3_checkout_requires_open envConst 500 dbW ⟨"r1", none, "checkout"⟩
      (.obj [("registrationId", .str "r1")]) "r1" tkW regW evW
      (by decide) rfl rfl (by decide) rfl rfl (Or.inl rfl)
      (by decide) (by decide) rfl).1.mpr rfl

/-! ### C10 — the scan route never verifies the payload hash -/

lemma findTicketChain_congr (db : DB) (raw1 raw2 : String) (ridJ : Option Json)
    (hex : db.tickets.find? (fun t => t.qrCodeData == raw1)
      = db.tickets.find? (fun t => t.qrCodeData == raw2)) :
    findTicketChain db raw1 ridJ = findTicketChain db raw2 ridJ := by
  delta findTicketChain
  rw [hex]

lemma scanAction_congr (now : ℤ) (db : DB) (r1 r2 : ScanRequest)
    (hsess : r1.sessionId = r2.sessionId) (hact : r1.action = r2.action) :
    ∀ ridJ, scanAction now db r1 ridJ = scanAction now db r2 ridJ := by
  intro ridJ
  simp only [scanAction, hsess, hact]

def tkX : Ticket := ⟨"t9", "other", "TK-9", generateQRCodeData envConst "r1" "e1" "u1" "t0"⟩

def regO : Registration := ⟨"other", .CONFIRMED, "e1", "u2"⟩

def dbX : DB := ⟨[regO], [evW], [tkX], [], 0⟩

/-- C10 (counterexample): the claim says the scan outcome is identical
whether the payload's `hash` field is valid or invalid, but the first
lookup step matches the raw scan string against stored `qrCodeData`
exactly, so the hash bytes are observable through it: with a stored
ticket whose payload text equals the validly-hashed string (and whose
`registrationId` differs from the payload's), the valid-hash run finds
that ticket and checks in, while the run whose only difference is the
`hash` field value falls through every lookup and fails with 404. -/
theorem c10_hash_affects_outcome_cex :
    Json.parse (generateQRCodeData envConst "r1" "e1" "u1" "t0")
      = some (qrPayloadFull "r1" "e1" "u1" "t0" "h")
    ∧ Json.parse (Json.stringify (qrPayloadFull "r1" "e1" "u1" "t0" "bad"))
      = some (qrPayloadFull "r1" "e1" "u1" "t0" "bad")
    ∧ scanPOST envConst 500 dbX
        ⟨generateQRCodeData envConst "r1" "e1" "u1" "t0", none, "checkin"⟩
      = (.checkinSuccess ⟨0, "r1", none, some 500, none, .QR_CODE⟩,
         { dbX with
            attendances := [⟨0, "r1", none, some 500, none, .QR_CODE⟩],
            nextAttendanceId := 1 })
    ∧ scanPOST envConst 500 dbX
        ⟨Json.stringify (qrPayloadFull "r1" "e1" "u1" "t0" "bad"), none, "checkin"⟩
      = (.ticketNotFound, dbX) := by
  refine ⟨rfl, rfl, rfl, rfl⟩

/-- C10 (amended): the scan route never calls the verify routine — its
outcome depends on the raw input only through the exact-payload-text
ticket lookup and the parsed `registrationId` field.  For any two
requests of the same action and session whose payloads parse with the
same `registrationId` (and the same nullity) and whose raw strings give
the same exact-match lookup result — in particular whenever neither raw
string equals any stored ticket's payload text — the outcome and the
resulting state are identical, regardless of the `hash` field being
valid, invalid or absent. -/
theorem c10_hash_never_verified (env : Env) (now : ℤ) (db : DB)
    (r1 r2 : ScanRequest) (j1 j2 : Json)
    (h1 : Json.parse r1.qrData = some j1) (h2 : Json.parse r2.qrData = some j2)
    (hq1 : r1.qrData ≠ "") (hq2 : r2.qrData ≠ "")
    (hnull : j1 = Json.null ↔ j2 = Json.null)
    (hrid : jGet j1 "registrationId" = jGet j2 "registrationId")
    (hexact : db.tickets.find? (fun t => t.qrCodeData == r1.qrData)
      = db.tickets.find? (fun t => t.qrCodeData == r2.qrData))
    (hsess : r1.sessionId = r2.sessionId) (hact : r1.action = r2.action) :
    scanPOST env now db r1 = scanPOST env now db r2 := by
  have hres1 : resolveScan env r1.qrData = .ok j1 := by rw [resolveScan, h1]
  have hres2 : resolveScan env r2.qrData = .ok j2 := by rw [resolveScan, h2]
  rw [scanPOST_ok env now db r1 j1 hq1 hres1, scanPOST_ok env now db r2 j2 hq2 hres2]
  by_cases hn : j1 = Json.null
  · rw [hn, hnull.mp hn]
    rfl
  · have hn2 : j2 ≠ Json.null := fun h => hn (hnull.mpr h)
    rw [scanCore_ne_null now db r1 j1 hn, scanCore_ne_null now db r2 j2 hn2]
    rw [hrid, findTicketChain_congr db r1.qrData r2.qrData _ hexact]
    simp only [scanAction_congr now db r1 r2 hsess hact]

/-- C10 (witness): when neither raw string matches a stored payload
text, a valid-hash payload and a wrong-hash payload with the same
`registrationId` produce identical outcomes. -/
theorem c10_hash_never_verified_witness :
    scanPOST envConst 500 dbW
        ⟨generateQRCodeData envConst "r1" "e1" "u1" "t0", none, "checkin"⟩
      = scanPOST envConst 500 dbW
        ⟨Json.stringify (qrPayloadFull "r1" "e1" "u1" "t0" "bad"), none, "checkin"⟩ :=
  c10_hash_never_verified envConst 500 dbW
    ⟨generateQRCodeData envConst "r1" "e1" "u1" "t0", none, "checkin"⟩
    ⟨Json.stringify (qrPayloadFull "r1" "e1" "u1" "t0" "bad"), none, "checkin"⟩
    (qrPayloadFull "r1" "e1" "u1" "t0" "h")
    (qrPayloadFull "r1" "e1" "u1" "t0" "bad")
    rfl rfl (by decide) (by decide)
    ⟨fun h => Json.noConfusion h, fun h => Json.noConfusion h⟩
    rfl rfl rfl rfl
